import Mathlib

/-!
Verification of the FF14 Data Center Travel client core: the
submit/poll/retry orchestration in `src/modules/transfer.py` and
`src/modules/return_home.py`, and the status handling in
`src/modules/api.py`, shallowly embedded in Lean.
-/

namespace FF14DCT

/-! ### String helpers

Executable models of Python `s.startswith(p)` and `p in s`
(substring containment), over the character lists of the strings. -/

/-- Model of list-prefix testing used below: `p` is a prefix of `s`. -/
def isPrefixChars : List Char → List Char → Bool
  | [], _ => true
  | _ :: _, [] => false
  | p :: ps, c :: cs => p == c && isPrefixChars ps cs

/-- Model of Python substring containment: `pat` occurs in the list. -/
def containsChars (pat : List Char) : List Char → Bool
  | [] => pat.isEmpty
  | c :: cs => isPrefixChars pat (c :: cs) || containsChars pat cs

/-- Model of Python `pat in s`. -/
def strContains (s pat : String) : Bool :=
  containsChars pat.data s.data

/-- Model of Python `s.startswith(pre)`. -/
def strStarts (s pre : String) : Bool :=
  isPrefixChars pre.data s.data

/-! ### Status classification

`FF14APIClient.check_order_status` (src/modules/api.py, lines 202-238)
returns the raw `migrationStatus` integer on a successful call, and `-1`
both when the service reports a non-zero `return_code` and when any
exception (timeout, connection error, malformed JSON) is raised.  Its
human-readable description table maps -1/0/1/4/5 and falls back to a
distinct "unknown status" text for every other code. -/

/-- The three possible shapes of a status-check interaction, as the
`try`/`except` structure of `check_order_status` distinguishes them. -/
inductive StatusResponse where
  | ok (migrationStatus : Option Int)
  | serviceError
  | networkError
  deriving DecidableEq, Repr

/-- Embedding of `check_order_status`: the raw code handed back to the
caller.  `return_code == 0` yields the migrationStatus field of the
data, defaulting to -1;
a non-zero `return_code` returns -1; any exception returns -1. -/
def checkOrderStatus : StatusResponse → Int
  | .ok ms => ms.getD (-1)
  | .serviceError => -1
  | .networkError => -1

/-- Embedding of the `status_desc` dictionary in `check_order_status`
(api.py lines 218-224): `some` for the five tabulated codes, `none`
for every other code (which the code logs with the distinct
"unknown status" fallback text). -/
def statusDescTable (code : Int) : Option String :=
  if code = -1 then some "预检失败"
  else if code = 0 then some "等待处理"
  else if code = 1 then some "处理中"
  else if code = 4 then some "传送中"
  else if code = 5 then some "传送成功"
  else none

/-- How the transfer poll loop (transfer.py lines 166-203) reacts to a
raw status code: `if status == 5` succeed; `elif status == -1` abort
the order (break to backoff); otherwise keep polling. -/
inductive PollStep where
  | terminateSuccess
  | abortPrecheck
  | keepPolling
  deriving DecidableEq, Repr

/-- The branch structure of the transfer poll body on one raw code. -/
def pollStepOf (status : Int) : PollStep :=
  if status = 5 then .terminateSuccess
  else if status = -1 then .abortPrecheck
  else .keepPolling

/-- Outcome of a whole polling phase. -/
inductive PollOutcome where
  | success
  | precheckFailed
  | timedOut
  deriving DecidableEq, Repr

/-- Embedding of the transfer-flow poll loop
`for check_attempt in range(10)` (transfer.py lines 166-203):
`statuses i` is the code returned by the (i+1)-th `check_order_status`
call; the pair carries the outcome and the total number of calls made.
First argument is the remaining iteration budget, second the number of
calls already made. -/
def pollTransferLoop (statuses : Nat → Int) : Nat → Nat → PollOutcome × Nat
  | 0, calls => (.timedOut, calls)
  | n + 1, calls =>
    match pollStepOf (statuses calls) with
    | .terminateSuccess => (.success, calls + 1)
    | .abortPrecheck => (.precheckFailed, calls + 1)
    | .keepPolling => pollTransferLoop statuses n (calls + 1)

/-- The transfer flow polls with a budget of 10 attempts. -/
def pollTransferStatus (statuses : Nat → Int) : PollOutcome × Nat :=
  pollTransferLoop statuses 10 0

/-! ### Remote orders and the return-flow order matcher

`ReturnService._find_active_travel_orders` and
`ReturnService._select_travel_order` (src/modules/return_home.py,
lines 168-253).  Every field is read with `order.get(key, default)`
in the source, so the embedding keeps each field optional and applies
the source default at each reading site. -/

/-- The fields of one entry of the order list of the remote service that the
return flow reads.  The role-name enrichment from `migrationDetailList`
does not affect which orders are selected, so it is not modelled. -/
structure RemoteOrder where
  orderId : Option String
  migrationType : Option Int
  migrationStatus : Option Int
  travelStatus : Option Int
  migrationStatusDesc : Option String
  deriving DecidableEq, Repr

/-- The filter predicate of `_find_active_travel_orders`
(return_home.py lines 182-205): `migrationType == 4` and
(`migrationStatus == 5 and travelStatus == 1` or the status
description contains the in-transit marker "旅行中"). -/
def isEligibleOrder (o : RemoteOrder) : Bool :=
  let migType := o.migrationType.getD (-1)
  let migStatus := o.migrationStatus.getD (-1)
  let travStatus := o.travelStatus.getD (-1)
  let desc := o.migrationStatusDesc.getD ""
  (migType == 4) && ((migStatus == 5 && travStatus == 1) || strContains desc "旅行中")

/-- Embedding of `_find_active_travel_orders`: keep, in order, the
orders passing the eligibility check. -/
def findActiveTravelOrders (orders : List RemoteOrder) : List RemoteOrder :=
  orders.filter isEligibleOrder

/-- What the caller does with the eligible set: `execute_return`
(return_home.py lines 62-75) reports a distinct "no active travel
order" condition on an empty set, and `_select_travel_order` returns
the single order without prompting when there is exactly one, or
surfaces the whole list for user disambiguation otherwise. -/
inductive MatchOutcome where
  | noEligible
  | selected (o : RemoteOrder)
  | choose (os : List RemoteOrder)
  deriving DecidableEq, Repr

/-- Embedding of the eligible-order handling in `execute_return` plus
`_select_travel_order`. -/
def matchForReturn (orders : List RemoteOrder) : MatchOutcome :=
  match findActiveTravelOrders orders with
  | [] => .noEligible
  | [o] => .selected o
  | o1 :: o2 :: rest => .choose (o1 :: o2 :: rest)

/-! ### Return-flow status polling

`ReturnService._poll_return_status` (return_home.py lines 361-425):
up to `max_attempts = 12` fetches of the order list, each scanned
first for a return order (`migrationType == 5`, id matching the
return or the travel order) with a terminal description, then for the
original travel order (`migrationType == 4`) having ended. -/

/-- First scan of one fetched order list (return_home.py lines
385-403): the first matching return order whose description contains
"返回成功" decides `some true`, the first whose description contains
"失败" decides `some false`; non-terminal matches are skipped. -/
def scanForReturnOrder (travelId returnId : String) : List RemoteOrder → Option Bool
  | [] => none
  | o :: rest =>
    let oid := o.orderId.getD ""
    let migType := o.migrationType.getD (-1)
    let desc := o.migrationStatusDesc.getD ""
    if migType == 5 && (oid == returnId || oid == travelId) then
      if strContains desc "返回成功" then some true
      else if strContains desc "失败" then some false
      else scanForReturnOrder travelId returnId rest
    else scanForReturnOrder travelId returnId rest

/-- Second scan (return_home.py lines 406-416): the original travel
order (`migrationType == 4`, id equal to the travel order id) with a
description containing "旅行结束" or `travelStatus == 3` means the
return completed. -/
def scanForTravelEnded (travelId : String) : List RemoteOrder → Bool
  | [] => false
  | o :: rest =>
    if o.orderId.getD "" == travelId && o.migrationType.getD (-1) == 4 then
      if strContains (o.migrationStatusDesc.getD "") "旅行结束"
          || o.travelStatus.getD (-1) == 3 then true
      else scanForTravelEnded travelId rest
    else scanForTravelEnded travelId rest

/-- Embedding of the body of `_poll_return_status`: `fetch i` is the
result of the (i+1)-th `fetch_migration_orders` call (`none` models a
failed fetch).  First argument is the remaining attempt budget, second
the number of fetches already made; the pair carries the Boolean
result of the poll and the total number of fetches. -/
def pollReturnLoop (fetch : Nat → Option (List RemoteOrder)) (travelId returnId : String) :
    Nat → Nat → Bool × Nat
  | 0, calls => (false, calls)
  | n + 1, calls =>
    match fetch calls with
    | none => pollReturnLoop fetch travelId returnId n (calls + 1)
    | some orders =>
      match scanForReturnOrder travelId returnId orders with
      | some b => (b, calls + 1)
      | none =>
        if scanForTravelEnded travelId orders then (true, calls + 1)
        else pollReturnLoop fetch travelId returnId n (calls + 1)

/-- The return flow polls with the default budget of 12 attempts. -/
def pollReturnStatus (fetch : Nat → Option (List RemoteOrder)) (travelId returnId : String) :
    Bool × Nat :=
  pollReturnLoop fetch travelId returnId 12 0

/-! ### Randomized backoff and the cancellable countdown

Both retry loops draw `wait_sec = random.randint(61, 65)` and count it
down one second at a time inside a `try`/`except KeyboardInterrupt`
(transfer.py lines 242-263, return_home.py lines 336-359). -/

/-- Model of Python `random.randint(a, b)` (both bounds inclusive):
the per-call entropy `r` is reduced into the inclusive range. -/
def randint (a b r : Nat) : Nat :=
  a + r % (b - a + 1)

/-- Result of one backoff countdown. -/
inductive WaitResult where
  | completed
  | cancelled
  deriving DecidableEq, Repr

/-- Embedding of `for remaining in range(wait_sec, 0, -1)` with the
surrounding `except KeyboardInterrupt`: `cancel i` states that the
interrupt arrives during tick `i` (0-based).  First argument is the
number of ticks still to perform, second the index of the next tick;
the pair carries the result and the number of ticks performed. -/
def countdown (cancel : Nat → Bool) : Nat → Nat → WaitResult × Nat
  | 0, tick => (.completed, tick)
  | n + 1, tick =>
    if cancel tick then (.cancelled, tick + 1)
    else countdown cancel n (tick + 1)

/-- One whole backoff wait of `waitSec` seconds. -/
def backoffWait (waitSec : Nat) (cancel : Nat → Bool) : WaitResult × Nat :=
  countdown cancel waitSec 0

/-! ### The transfer retry loop

`TransferService._run_transfer_loop` (transfer.py lines 137-263):
an unbounded `while True` that submits, interprets the response,
optionally polls, and on any non-terminal outcome backs off and
resubmits.  The loop returns `True` (success) or `None` (cancelled);
`False` is only ever produced by the pre-loop steps of
`execute_transfer`. -/

/-- The three shapes `submit_transfer` can hand back (api.py lines
137-200): an order-id string, a result dictionary carrying an optional
`resultCode`, or anything else (`None` on errors). -/
inductive SubmitResult where
  | strRes (s : String)
  | dictRes (resultCode : Option Int)
  | otherRes
  deriving DecidableEq, Repr

/-- The Python `True` / `False` / `None` tri-state returned by the
services. -/
inductive TriState where
  | success
  | failure
  | cancelled
  deriving DecidableEq, Repr

/-- What one loop iteration decides before the backoff branch. -/
inductive AttemptOutcome where
  | succeeded
  | retry
  deriving DecidableEq, Repr

/-- Outcome of one attempt plus the number of status-check calls the
attempt made while polling. -/
structure AttemptRes where
  outcome : AttemptOutcome
  pollCalls : Nat
  deriving DecidableEq, Repr

/-- Embedding of the response interpretation of one transfer attempt
(transfer.py lines 158-240): a string starting with "GM" enters the
status poll; a dictionary with `resultCode` 0 or 5 is an immediate
success; every other response falls through to the backoff branch. -/
def transferAttempt (r : SubmitResult) (statuses : Nat → Int) : AttemptRes :=
  match r with
  | .strRes s =>
    if strStarts s "GM" then
      match pollTransferStatus statuses with
      | (.success, c) => ⟨.succeeded, c⟩
      | (.precheckFailed, c) => ⟨.retry, c⟩
      | (.timedOut, c) => ⟨.retry, c⟩
    else ⟨.retry, 0⟩
  | .dictRes rc =>
    if rc.getD (-1) == 0 || rc.getD (-1) == 5 then ⟨.succeeded, 0⟩ else ⟨.retry, 0⟩
  | .otherRes => ⟨.retry, 0⟩

/-- The remote-response environment of one transfer run: per attempt
`n`, the submit response, the status codes seen while polling, the
ticks at which a cancellation signal arrives during the backoff wait
of that attempt, and the entropy consumed by the
`random.randint(61, 65)` draw of that attempt. -/
structure TransferEnv where
  submit : Nat → SubmitResult
  statuses : Nat → Nat → Int
  cancel : Nat → Nat → Bool
  entropy : Nat → Nat

/-- The wait duration the loop draws before retrying attempt `n`. -/
def drawnWait (env : TransferEnv) (n : Nat) : Nat :=
  randint 61 65 (env.entropy n)

/-- Instrumented result of running the loop: the tri-state result
(`none` while the loop is still running when the fuel runs out), the
number of submissions made, the `success` flags of the
`log_transfer_history` calls made, and the number of backoff waits
entered. -/
structure RunTrace where
  result : Option TriState
  attempts : Nat
  hist : List Bool
  backoffs : Nat
  deriving DecidableEq, Repr

/-- Embedding of the `while True` body of `_run_transfer_loop` from
attempt `n` on, with `fuel` iterations of budget.  A successful
attempt logs `success=True` and returns `True`; a non-terminal attempt
enters the backoff countdown, and a cancellation there logs
`success=False` and returns `None`; otherwise the loop resubmits. -/
def runTransfer (env : TransferEnv) : Nat → Nat → RunTrace
  | 0, _ => ⟨none, 0, [], 0⟩
  | fuel + 1, n =>
    match (transferAttempt (env.submit n) (env.statuses n)).outcome with
    | .succeeded => ⟨some .success, 1, [true], 0⟩
    | .retry =>
      match (backoffWait (drawnWait env n) (env.cancel n)).1 with
      | .cancelled => ⟨some .cancelled, 1, [false], 1⟩
      | .completed =>
        let t := runTransfer env fuel (n + 1)
        ⟨t.result, t.attempts + 1, t.hist, t.backoffs + 1⟩

/-- A transfer run started at attempt 0. -/
def runTransferFrom (env : TransferEnv) (fuel : Nat) : RunTrace :=
  runTransfer env fuel 0

/-! ### The return retry loop

`ReturnService._run_return_loop` (return_home.py lines 255-359): same
unbounded structure; the submit collaborator is `submit_travel_back`
(api.py lines 333-386), which returns a dictionary with a `success`
flag, or `None`. -/

/-- The shapes `submit_travel_back` hands back: a success dictionary
carrying the return order id, a failure dictionary, or `None`. -/
inductive BackSubmit where
  | okRes (orderId : String)
  | failedRes (resultCode : Option Int)
  | noneRes
  deriving DecidableEq, Repr

/-- Embedding of the response interpretation of one return attempt
(return_home.py lines 271-334): a success dictionary enters the
return-status poll; everything else falls through to backoff. -/
def returnAttempt (r : BackSubmit) (fetch : Nat → Option (List RemoteOrder))
    (travelId : String) : AttemptRes :=
  match r with
  | .okRes returnId =>
    match pollReturnStatus fetch travelId returnId with
    | (true, c) => ⟨.succeeded, c⟩
    | (false, c) => ⟨.retry, c⟩
  | .failedRes _ => ⟨.retry, 0⟩
  | .noneRes => ⟨.retry, 0⟩

/-- The remote-response environment of one return run. -/
structure ReturnEnv where
  travelId : String
  submit : Nat → BackSubmit
  fetch : Nat → Nat → Option (List RemoteOrder)
  cancel : Nat → Nat → Bool
  entropy : Nat → Nat

/-- The wait duration the return loop draws before retrying attempt
`n`. -/
def drawnWaitR (env : ReturnEnv) (n : Nat) : Nat :=
  randint 61 65 (env.entropy n)

/-- Embedding of the `while True` body of `_run_return_loop` from
attempt `n` on, with `fuel` iterations of budget. -/
def runReturn (env : ReturnEnv) : Nat → Nat → RunTrace
  | 0, _ => ⟨none, 0, [], 0⟩
  | fuel + 1, n =>
    match (returnAttempt (env.submit n) (env.fetch n) env.travelId).outcome with
    | .succeeded => ⟨some .success, 1, [true], 0⟩
    | .retry =>
      match (backoffWait (drawnWaitR env n) (env.cancel n)).1 with
      | .cancelled => ⟨some .cancelled, 1, [false], 1⟩
      | .completed =>
        let t := runReturn env fuel (n + 1)
        ⟨t.result, t.attempts + 1, t.hist, t.backoffs + 1⟩

/-- A return run started at attempt 0. -/
def runReturnFrom (env : ReturnEnv) (fuel : Nat) : RunTrace :=
  runReturn env fuel 0

/-- One fetched order list is non-terminal for the return poll: the
fetch failed, or neither scan found a terminal condition. -/
def returnPollNonTerminal (fetch : Nat → Option (List RemoteOrder))
    (travelId returnId : String) (i : Nat) : Bool :=
  match fetch i with
  | none => true
  | some orders =>
    match scanForReturnOrder travelId returnId orders with
    | some _ => false
    | none => !scanForTravelEnded travelId orders

/-! ### Concrete environments and orders used in the scenarios below -/

/-- A transfer run whose very first submission yields an order id whose
first status check reports code 5. -/
def envOneShot : TransferEnv :=
  ⟨fun _ => .strRes "GM1", fun _ _ => 5, fun _ _ => false, fun _ => 0⟩

/-- A transfer run whose submissions always fail outright (the submit
collaborator keeps returning `None`), never cancelled. -/
def envAlwaysBusy : TransferEnv :=
  ⟨fun _ => .otherRes, fun _ _ => 0, fun _ _ => false, fun _ => 0⟩

/-- A return run whose submissions always fail outright, never
cancelled. -/
def envAlwaysBusyR : ReturnEnv :=
  ⟨"T1", fun _ => .noneRes, fun _ _ => none, fun _ _ => false, fun _ => 0⟩

/-- A transfer run whose first submission fails and whose first backoff
wait is interrupted at its very first tick. -/
def envCancelFirstTick : TransferEnv :=
  ⟨fun _ => .otherRes, fun _ _ => 0, fun _ t => t == 0, fun _ => 0⟩

/-- Scenario B of the specification: the submit collaborator answers
the first three submissions with the business rejection
`{resultCode: 2, resultMsg: "busy"}` and the fourth with an order id
whose first status check reports code 5. -/
def envScenarioB : TransferEnv :=
  ⟨fun n => if n < 3 then .dictRes (some 2) else .strRes "GM1",
   fun _ _ => 5, fun _ _ => false, fun _ => 0⟩

/-- A completed return order, as the return poll recognizes it. -/
def ordReturnDone : RemoteOrder :=
  ⟨some "R1", some 5, some 5, some 2, some "返回成功"⟩

/-- A return run whose first submission is accepted and whose first
order-list fetch already shows the return order completed. -/
def envReturnOneShot : ReturnEnv :=
  ⟨"T1", fun _ => .okRes "R1", fun _ _ => some [ordReturnDone],
   fun _ _ => false, fun _ => 0⟩

/-- An outbound travel order currently in transit (both the numeric
pair and the textual marker qualify it). -/
def ordInTransit : RemoteOrder :=
  ⟨some "GM7001", some 4, some 5, some 1, some "旅行中【已达到目的地】"⟩

/-- A second qualifying travel order (textual marker only). -/
def ordInTransitText : RemoteOrder :=
  ⟨some "GM7002", some 4, some 3, some 0, some "旅行中"⟩

/-- A non-qualifying order: a return order, not an outbound one. -/
def ordNotEligible : RemoteOrder :=
  ⟨some "GM7003", some 5, some 5, some 1, some "返回成功"⟩

/-! ### Helper lemmas on the countdown -/

lemma countdown_no_cancel (cancel : Nat → Bool) (hc : ∀ i, cancel i = false) :
    ∀ n tick, countdown cancel n tick = (.completed, tick + n) := by
  intro n
  induction n with
  | zero => intro tick; simp [countdown]
  | succ m ih =>
    intro tick
    simp only [countdown, hc tick, if_false, Bool.false_eq_true, ih (tick + 1)]
    rw [show tick + (m + 1) = tick + 1 + m by omega]

lemma countdown_first_cancel (cancel : Nat → Bool) :
    ∀ j n tick, j < n → cancel (tick + j) = true → (∀ i, i < j → cancel (tick + i) = false) →
      countdown cancel n tick = (.cancelled, tick + j + 1) := by
  intro j
  induction j with
  | zero =>
    intro n tick hj hc _
    obtain ⟨m, rfl⟩ : ∃ m, n = m + 1 := ⟨n - 1, by omega⟩
    simp only [Nat.add_zero] at hc
    simp [countdown, hc]
  | succ k ih =>
    intro n tick hj hc hmin
    obtain ⟨m, rfl⟩ : ∃ m, n = m + 1 := ⟨n - 1, by omega⟩
    have h0 : cancel tick = false := by
      have := hmin 0 (Nat.succ_pos k)
      simpa using this
    have hrec := ih m (tick + 1) (by omega)
      (by have : tick + 1 + k = tick + (k + 1) := by omega
          rw [this]; exact hc)
      (by intro i hi
          have : tick + 1 + i = tick + (i + 1) := by omega
          rw [this]; exact hmin (i + 1) (by omega))
    simp only [countdown, h0, Bool.false_eq_true, if_false, hrec]
    rw [show tick + (k + 1) + 1 = tick + 1 + k + 1 by omega]

/-! ### Helper lemmas on the transfer poll loop -/

lemma pollTransferLoop_calls_le (statuses : Nat → Int) :
    ∀ n calls, (pollTransferLoop statuses n calls).2 ≤ calls + n := by
  intro n
  induction n with
  | zero => intro calls; simp [pollTransferLoop]
  | succ m ih =>
    intro calls
    rcases h : pollStepOf (statuses calls) with _ | _ | _ <;>
      simp only [pollTransferLoop, h] <;> first | omega | (have hrec := ih (calls + 1); omega)

lemma pollTransferLoop_calls_ge (statuses : Nat → Int) :
    ∀ n calls, calls ≤ (pollTransferLoop statuses n calls).2 := by
  intro n
  induction n with
  | zero => intro calls; simp [pollTransferLoop]
  | succ m ih =>
    intro calls
    rcases h : pollStepOf (statuses calls) with _ | _ | _ <;>
      simp only [pollTransferLoop, h] <;> first | omega | (have hrec := ih (calls + 1); omega)

lemma pollTransferLoop_skip (statuses : Nat → Int) :
    ∀ j n calls, j ≤ n → (∀ i, i < j → pollStepOf (statuses (calls + i)) = .keepPolling) →
      pollTransferLoop statuses n calls = pollTransferLoop statuses (n - j) (calls + j) := by
  intro j
  induction j with
  | zero => intro n calls _ _; simp
  | succ k ih =>
    intro n calls hj hkeep
    obtain ⟨m, rfl⟩ : ∃ m, n = m + 1 := ⟨n - 1, by omega⟩
    have h0 : pollStepOf (statuses calls) = .keepPolling := by
      have := hkeep 0 (Nat.succ_pos k)
      simpa using this
    have hrec := ih m (calls + 1) (by omega)
      (by intro i hi
          have : calls + 1 + i = calls + (i + 1) := by omega
          rw [this]; exact hkeep (i + 1) (by omega))
    simp only [pollTransferLoop, h0, hrec]
    have h1 : m + 1 - (k + 1) = m - k := by omega
    have h2 : calls + 1 + k = calls + (k + 1) := by omega
    rw [h1, h2]

lemma pollTransferStatus_terminal (statuses : Nat → Int) (j : Nat) (hj : j < 10)
    (hkeep : ∀ i, i < j → pollStepOf (statuses i) = .keepPolling) :
    (pollStepOf (statuses j) = .terminateSuccess →
      pollTransferStatus statuses = (.success, j + 1)) ∧
    (pollStepOf (statuses j) = .abortPrecheck →
      pollTransferStatus statuses = (.precheckFailed, j + 1)) := by
  have hskip := pollTransferLoop_skip statuses j 10 0 (by omega)
    (by intro i hi; simpa using hkeep i hi)
  obtain ⟨m, hm⟩ : ∃ m, 10 - j = m + 1 := ⟨10 - j - 1, by omega⟩
  constructor <;> intro hterm <;>
    · rw [pollTransferStatus, hskip, hm]
      simp only [pollTransferLoop, Nat.zero_add, hterm]

lemma pollTransferStatus_timeout (statuses : Nat → Int)
    (hkeep : ∀ i, i < 10 → pollStepOf (statuses i) = .keepPolling) :
    pollTransferStatus statuses = (.timedOut, 10) := by
  have hskip := pollTransferLoop_skip statuses 10 10 0 (by omega)
    (by intro i hi; simpa using hkeep i hi)
  rw [pollTransferStatus, hskip]
  simp [pollTransferLoop]

/-! ### Helper lemmas on the return poll loop -/

lemma pollReturnLoop_calls_le (fetch : Nat → Option (List RemoteOrder)) (tid rid : String) :
    ∀ n calls, (pollReturnLoop fetch tid rid n calls).2 ≤ calls + n := by
  intro n
  induction n with
  | zero => intro calls; simp [pollReturnLoop]
  | succ m ih =>
    intro calls
    rcases hf : fetch calls with _ | orders
    · simp only [pollReturnLoop, hf]
      have := ih (calls + 1); omega
    · rcases hs : scanForReturnOrder tid rid orders with _ | b
      · rcases he : scanForTravelEnded tid orders with _ | _
        · simp only [pollReturnLoop, hf, hs, he, Bool.false_eq_true, if_false]
          have := ih (calls + 1); omega
        · simp only [pollReturnLoop, hf, hs, he, if_true]
          omega
      · simp only [pollReturnLoop, hf, hs]
        omega

lemma pollReturnLoop_skip (fetch : Nat → Option (List RemoteOrder)) (tid rid : String) :
    ∀ j n calls, j ≤ n →
      (∀ i, i < j → returnPollNonTerminal fetch tid rid (calls + i) = true) →
      pollReturnLoop fetch tid rid n calls = pollReturnLoop fetch tid rid (n - j) (calls + j) := by
  intro j
  induction j with
  | zero => intro n calls _ _; simp
  | succ k ih =>
    intro n calls hj hnt
    obtain ⟨m, rfl⟩ : ∃ m, n = m + 1 := ⟨n - 1, by omega⟩
    have h0 : returnPollNonTerminal fetch tid rid calls = true := by
      have := hnt 0 (Nat.succ_pos k)
      simpa using this
    have hrec := ih m (calls + 1) (by omega)
      (by intro i hi
          have : calls + 1 + i = calls + (i + 1) := by omega
          rw [this]; exact hnt (i + 1) (by omega))
    have hstep : pollReturnLoop fetch tid rid (m + 1) calls =
        pollReturnLoop fetch tid rid m (calls + 1) := by
      rcases hf : fetch calls with _ | orders
      · simp only [pollReturnLoop, hf]
      · rcases hs : scanForReturnOrder tid rid orders with _ | b
        · rcases he : scanForTravelEnded tid orders with _ | _
          · simp only [pollReturnLoop, hf, hs, he, Bool.false_eq_true, if_false]
          · exfalso
            simp only [returnPollNonTerminal, hf, hs, he] at h0
            simp at h0
        · exfalso
          simp only [returnPollNonTerminal, hf, hs] at h0
          simp at h0
    rw [hstep, hrec]
    have h1 : m + 1 - (k + 1) = m - k := by omega
    have h2 : calls + 1 + k = calls + (k + 1) := by omega
    rw [h1, h2]

lemma pollReturnStatus_terminal (fetch : Nat → Option (List RemoteOrder)) (tid rid : String)
    (j : Nat) (hj : j < 12)
    (hnt : ∀ i, i < j → returnPollNonTerminal fetch tid rid i = true)
    (orders : List RemoteOrder) (b : Bool) (hf : fetch j = some orders)
    (hs : scanForReturnOrder tid rid orders = some b) :
    pollReturnStatus fetch tid rid = (b, j + 1) := by
  have hskip := pollReturnLoop_skip fetch tid rid j 12 0 (by omega)
    (by intro i hi; simpa using hnt i hi)
  obtain ⟨m, hm⟩ : ∃ m, 12 - j = m + 1 := ⟨12 - j - 1, by omega⟩
  rw [pollReturnStatus, hskip, hm]
  simp only [pollReturnLoop, Nat.zero_add, hf, hs]

lemma pollReturnStatus_timeout (fetch : Nat → Option (List RemoteOrder)) (tid rid : String)
    (hnt : ∀ i, i < 12 → returnPollNonTerminal fetch tid rid i = true) :
    pollReturnStatus fetch tid rid = (false, 12) := by
  have hskip := pollReturnLoop_skip fetch tid rid 12 12 0 (by omega)
    (by intro i hi; simpa using hnt i hi)
  rw [pollReturnStatus, hskip]
  simp [pollReturnLoop]

/-! ### Helper lemmas on the retry loops -/

lemma runTransfer_step_succeeded (env : TransferEnv) (fuel n : Nat)
    (h : (transferAttempt (env.submit n) (env.statuses n)).outcome = .succeeded) :
    runTransfer env (fuel + 1) n = ⟨some .success, 1, [true], 0⟩ := by
  simp only [runTransfer, h]

lemma runTransfer_step_cancelled (env : TransferEnv) (fuel n : Nat)
    (h : (transferAttempt (env.submit n) (env.statuses n)).outcome = .retry)
    (hw : (backoffWait (drawnWait env n) (env.cancel n)).1 = .cancelled) :
    runTransfer env (fuel + 1) n = ⟨some .cancelled, 1, [false], 1⟩ := by
  simp only [runTransfer, h, hw]

lemma runTransfer_step_completed (env : TransferEnv) (fuel n : Nat)
    (h : (transferAttempt (env.submit n) (env.statuses n)).outcome = .retry)
    (hw : (backoffWait (drawnWait env n) (env.cancel n)).1 = .completed) :
    runTransfer env (fuel + 1) n =
      ⟨(runTransfer env fuel (n + 1)).result, (runTransfer env fuel (n + 1)).attempts + 1,
       (runTransfer env fuel (n + 1)).hist, (runTransfer env fuel (n + 1)).backoffs + 1⟩ := by
  simp only [runTransfer, h, hw]

lemma runTransfer_trace_cases (env : TransferEnv) :
    ∀ fuel n,
      ((runTransfer env fuel n).result = none ∧ (runTransfer env fuel n).hist = [] ∧
        (runTransfer env fuel n).attempts = fuel ∧ (runTransfer env fuel n).backoffs = fuel) ∨
      ((runTransfer env fuel n).result = some .success ∧ (runTransfer env fuel n).hist = [true] ∧
        (runTransfer env fuel n).backoffs + 1 = (runTransfer env fuel n).attempts) ∨
      ((runTransfer env fuel n).result = some .cancelled ∧ (runTransfer env fuel n).hist = [false] ∧
        (runTransfer env fuel n).backoffs = (runTransfer env fuel n).attempts) := by
  intro fuel
  induction fuel with
  | zero => intro n; left; simp [runTransfer]
  | succ m ih =>
    intro n
    rcases h : (transferAttempt (env.submit n) (env.statuses n)).outcome with _ | _
    · right; left
      rw [runTransfer_step_succeeded env m n h]
      exact ⟨rfl, rfl, rfl⟩
    · rcases hw : (backoffWait (drawnWait env n) (env.cancel n)).1 with _ | _
      · rw [runTransfer_step_completed env m n h hw]
        rcases ih (n + 1) with ⟨h1, h2, h3, h4⟩ | ⟨h1, h2, h3⟩ | ⟨h1, h2, h3⟩
        · left; exact ⟨h1, h2, by simp [h3], by simp [h4]⟩
        · right; left; exact ⟨h1, h2, by simp; omega⟩
        · right; right; exact ⟨h1, h2, by simp [h3]⟩
      · right; right
        rw [runTransfer_step_cancelled env m n h hw]
        exact ⟨rfl, rfl, rfl⟩

lemma runTransfer_never_failure (env : TransferEnv) (fuel n : Nat) :
    (runTransfer env fuel n).result ≠ some TriState.failure := by
  rcases runTransfer_trace_cases env fuel n with ⟨h1, _⟩ | ⟨h1, _⟩ | ⟨h1, _⟩ <;>
    simp [h1]

lemma runReturn_step_succeeded (env : ReturnEnv) (fuel n : Nat)
    (h : (returnAttempt (env.submit n) (env.fetch n) env.travelId).outcome = .succeeded) :
    runReturn env (fuel + 1) n = ⟨some .success, 1, [true], 0⟩ := by
  simp only [runReturn, h]

lemma runReturn_step_cancelled (env : ReturnEnv) (fuel n : Nat)
    (h : (returnAttempt (env.submit n) (env.fetch n) env.travelId).outcome = .retry)
    (hw : (backoffWait (drawnWaitR env n) (env.cancel n)).1 = .cancelled) :
    runReturn env (fuel + 1) n = ⟨some .cancelled, 1, [false], 1⟩ := by
  simp only [runReturn, h, hw]

lemma runReturn_step_completed (env : ReturnEnv) (fuel n : Nat)
    (h : (returnAttempt (env.submit n) (env.fetch n) env.travelId).outcome = .retry)
    (hw : (backoffWait (drawnWaitR env n) (env.cancel n)).1 = .completed) :
    runReturn env (fuel + 1) n =
      ⟨(runReturn env fuel (n + 1)).result, (runReturn env fuel (n + 1)).attempts + 1,
       (runReturn env fuel (n + 1)).hist, (runReturn env fuel (n + 1)).backoffs + 1⟩ := by
  simp only [runReturn, h, hw]

lemma runReturn_trace_cases (env : ReturnEnv) :
    ∀ fuel n,
      ((runReturn env fuel n).result = none ∧ (runReturn env fuel n).hist = [] ∧
        (runReturn env fuel n).attempts = fuel ∧ (runReturn env fuel n).backoffs = fuel) ∨
      ((runReturn env fuel n).result = some .success ∧ (runReturn env fuel n).hist = [true] ∧
        (runReturn env fuel n).backoffs + 1 = (runReturn env fuel n).attempts) ∨
      ((runReturn env fuel n).result = some .cancelled ∧ (runReturn env fuel n).hist = [false] ∧
        (runReturn env fuel n).backoffs = (runReturn env fuel n).attempts) := by
  intro fuel
  induction fuel with
  | zero => intro n; left; simp [runReturn]
  | succ m ih =>
    intro n
    rcases h : (returnAttempt (env.submit n) (env.fetch n) env.travelId).outcome with _ | _
    · right; left
      rw [runReturn_step_succeeded env m n h]
      exact ⟨rfl, rfl, rfl⟩
    · rcases hw : (backoffWait (drawnWaitR env n) (env.cancel n)).1 with _ | _
      · rw [runReturn_step_completed env m n h hw]
        rcases ih (n + 1) with ⟨h1, h2, h3, h4⟩ | ⟨h1, h2, h3⟩ | ⟨h1, h2, h3⟩
        · left; exact ⟨h1, h2, by simp [h3], by simp [h4]⟩
        · right; left; exact ⟨h1, h2, by simp; omega⟩
        · right; right; exact ⟨h1, h2, by simp [h3]⟩
      · right; right
        rw [runReturn_step_cancelled env m n h hw]
        exact ⟨rfl, rfl, rfl⟩

lemma runReturn_never_failure (env : ReturnEnv) (fuel n : Nat) :
    (runReturn env fuel n).result ≠ some TriState.failure := by
  rcases runReturn_trace_cases env fuel n with ⟨h1, _⟩ | ⟨h1, _⟩ | ⟨h1, _⟩ <;>
    simp [h1]

/-! ### Attempt-level helper lemmas -/

lemma transferAttempt_gm (s : String) (statuses : Nat → Int)
    (hs : strStarts s "GM" = true) :
    transferAttempt (.strRes s) statuses =
      ⟨if (pollTransferStatus statuses).1 = .success then .succeeded else .retry,
       (pollTransferStatus statuses).2⟩ := by
  rcases h : pollTransferStatus statuses with ⟨o, c⟩
  cases o <;> simp [transferAttempt, hs, h]

lemma returnAttempt_ok (rid : String) (fetch : Nat → Option (List RemoteOrder))
    (tid : String) :
    returnAttempt (.okRes rid) fetch tid =
      ⟨if (pollReturnStatus fetch tid rid).1 then .succeeded else .retry,
       (pollReturnStatus fetch tid rid).2⟩ := by
  rcases h : pollReturnStatus fetch tid rid with ⟨b, c⟩
  cases b <;> simp [returnAttempt, h]

lemma runTransfer_envAlwaysBusy :
    ∀ fuel n, runTransfer envAlwaysBusy fuel n = ⟨none, fuel, [], fuel⟩ := by
  intro fuel
  induction fuel with
  | zero => intro n; simp [runTransfer]
  | succ m ih =>
    intro n
    have h : (transferAttempt (envAlwaysBusy.submit n) (envAlwaysBusy.statuses n)).outcome =
        .retry := rfl
    have hw : (backoffWait (drawnWait envAlwaysBusy n) (envAlwaysBusy.cancel n)).1 =
        .completed := by
      rw [backoffWait, countdown_no_cancel (envAlwaysBusy.cancel n) (fun _ => rfl)]
    rw [runTransfer_step_completed _ _ _ h hw, ih (n + 1)]

lemma runReturn_envAlwaysBusyR :
    ∀ fuel n, runReturn envAlwaysBusyR fuel n = ⟨none, fuel, [], fuel⟩ := by
  intro fuel
  induction fuel with
  | zero => intro n; simp [runReturn]
  | succ m ih =>
    intro n
    have h : (returnAttempt (envAlwaysBusyR.submit n) (envAlwaysBusyR.fetch n)
        envAlwaysBusyR.travelId).outcome = .retry := rfl
    have hw : (backoffWait (drawnWaitR envAlwaysBusyR n) (envAlwaysBusyR.cancel n)).1 =
        .completed := by
      rw [backoffWait, countdown_no_cancel (envAlwaysBusyR.cancel n) (fun _ => rfl)]
    rw [runReturn_step_completed _ _ _ h hw, ih (n + 1)]

lemma pollTransferLoop_calls_pos (statuses : Nat → Int) (n calls : Nat) :
    calls + 1 ≤ (pollTransferLoop statuses (n + 1) calls).2 := by
  rcases h : pollStepOf (statuses calls) with _ | _ | _ <;>
    simp only [pollTransferLoop, h] <;>
    first
      | omega
      | (have hrec := pollTransferLoop_calls_ge statuses n (calls + 1); omega)

/-! ### Claims -/

/-- C2: For every raw numeric status code returned by a status check,
the classification is: -1 maps to PrecheckFailed, each of 0, 1 and 4
maps to Pending, 5 maps to Success, and every code outside this table
maps to Unknown which is treated as Pending for retry purposes (the
poll loop neither terminates successfully nor aborts the order on such
a code) while being logged distinctly (the description table has no
entry for it). -/
theorem status_code_classification :
    (pollStepOf (-1) = PollStep.abortPrecheck ∧
     pollStepOf 0 = PollStep.keepPolling ∧
     pollStepOf 1 = PollStep.keepPolling ∧
     pollStepOf 4 = PollStep.keepPolling ∧
     pollStepOf 5 = PollStep.terminateSuccess ∧
     statusDescTable (-1) = some "预检失败" ∧
     statusDescTable 0 = some "等待处理" ∧
     statusDescTable 1 = some "处理中" ∧
     statusDescTable 4 = some "传送中" ∧
     statusDescTable 5 = some "传送成功") ∧
    (∀ c : Int, c ≠ -1 → c ≠ 0 → c ≠ 1 → c ≠ 4 → c ≠ 5 →
      statusDescTable c = none ∧ pollStepOf c = PollStep.keepPolling) ∧
    (∀ (statuses : Nat → Int) (n calls : Nat),
      pollStepOf (statuses calls) = PollStep.keepPolling →
      pollTransferLoop statuses (n + 1) calls = pollTransferLoop statuses n (calls + 1)) := by
  refine ⟨by decide, fun c h1 h2 h3 h4 h5 => ?_, fun statuses n calls hk => ?_⟩
  · constructor <;> simp [statusDescTable, pollStepOf, h1, h2, h3, h4, h5]
  · simp only [pollTransferLoop, hk]

/-- C2 witness: the code 7 is outside the table, is not in the
description table, and is treated as keep-polling. -/
theorem status_code_classification_witness :
    statusDescTable 7 = none ∧ pollStepOf 7 = PollStep.keepPolling :=
  status_code_classification.2.1 7 (by decide) (by decide) (by decide) (by decide) (by decide)

/-- C3: The eligible-for-return subset contains exactly the orders with
`migrationType = 4` whose status qualifies numerically
(`migrationStatus = 5` and `travelStatus = 1`) or textually (the
description contains "旅行中"); zero eligible orders yield the distinct
no-eligible-order condition, exactly one is selected automatically, and
several are all surfaced for user disambiguation. -/
theorem return_order_matching (orders : List RemoteOrder) :
    (∀ o, o ∈ findActiveTravelOrders orders ↔
      o ∈ orders ∧ (o.migrationType.getD (-1) = 4 ∧
        ((o.migrationStatus.getD (-1) = 5 ∧ o.travelStatus.getD (-1) = 1) ∨
          strContains (o.migrationStatusDesc.getD "") "旅行中" = true))) ∧
    (findActiveTravelOrders orders = [] → matchForReturn orders = MatchOutcome.noEligible) ∧
    (∀ o, findActiveTravelOrders orders = [o] →
      matchForReturn orders = MatchOutcome.selected o) ∧
    (∀ o1 o2 rest, findActiveTravelOrders orders = o1 :: o2 :: rest →
      matchForReturn orders = MatchOutcome.choose (o1 :: o2 :: rest)) := by
  refine ⟨fun o => ?_, fun h => ?_, fun o h => ?_, fun o1 o2 rest h => ?_⟩
  · rw [findActiveTravelOrders, List.mem_filter]
    simp [isEligibleOrder, Bool.and_eq_true, Bool.or_eq_true, beq_iff_eq, and_assoc]
  · simp only [matchForReturn, h]
  · simp only [matchForReturn, h]
  · simp only [matchForReturn, h]

/-- C3 witness: an empty list yields the no-eligible condition; one
qualifying order among two is selected automatically; two qualifying
orders are both surfaced. -/
theorem return_order_matching_witness :
    (matchForReturn [] = MatchOutcome.noEligible) ∧
    (matchForReturn [ordInTransit, ordNotEligible] = MatchOutcome.selected ordInTransit) ∧
    (matchForReturn [ordInTransit, ordInTransitText] =
      MatchOutcome.choose [ordInTransit, ordInTransitText]) :=
  ⟨(return_order_matching []).2.1 rfl,
   (return_order_matching _).2.2.1 ordInTransit (by decide),
   (return_order_matching _).2.2.2 ordInTransit ordInTransitText [] (by decide)⟩

/-- C9: On every invocation of the backoff wait in either retry loop,
the drawn duration d satisfies 61 ≤ d ≤ 65 inclusive; every value of
the range is attainable, and the duration is drawn fresh from
per-invocation entropy rather than fixed across invocations. -/
theorem backoff_duration_range :
    (∀ (env : TransferEnv) (n : Nat), 61 ≤ drawnWait env n ∧ drawnWait env n ≤ 65) ∧
    (∀ (env : ReturnEnv) (n : Nat), 61 ≤ drawnWaitR env n ∧ drawnWaitR env n ≤ 65) ∧
    (∀ d : Nat, 61 ≤ d → d ≤ 65 → ∃ r, randint 61 65 r = d) ∧
    (∃ env : TransferEnv, drawnWait env 0 ≠ drawnWait env 1) := by
  refine ⟨fun env n => ?_, fun env n => ?_, fun d h1 h2 => ?_, ?_⟩
  · unfold drawnWait randint
    have h5 : env.entropy n % (65 - 61 + 1) < 65 - 61 + 1 := Nat.mod_lt _ (by norm_num)
    omega
  · unfold drawnWaitR randint
    have h5 : env.entropy n % (65 - 61 + 1) < 65 - 61 + 1 := Nat.mod_lt _ (by norm_num)
    omega
  · refine ⟨d - 61, ?_⟩
    unfold randint
    have hlt : d - 61 < 65 - 61 + 1 := by omega
    rw [Nat.mod_eq_of_lt hlt]
    omega
  · exact ⟨⟨fun _ => .otherRes, fun _ _ => 0, fun _ _ => false, fun i => i⟩, by decide⟩

/-- C9 witness: 63 lies in the inclusive range and is attained by some
entropy value. -/
theorem backoff_duration_range_witness :
    (61 : Nat) ≤ 63 ∧ (63 : Nat) ≤ 65 ∧ ∃ r, randint 61 65 r = 63 :=
  ⟨by decide, by decide, backoff_duration_range.2.2.1 63 (by decide) (by decide)⟩

/-- C10: In the transfer flow a submission response enters the
status-polling phase if and only if it is a string starting with "GM";
a string not starting with "GM", and any non-string non-dict response,
is handled as a failed submission (retry, zero status checks) and the
loop proceeds to backoff and resubmission, never polling. -/
theorem gm_prefix_gates_polling :
    (∀ (s : String) (statuses : Nat → Int),
      (transferAttempt (SubmitResult.strRes s) statuses).pollCalls ≠ 0 ↔
        strStarts s "GM" = true) ∧
    (∀ (s : String) (statuses : Nat → Int), strStarts s "GM" = false →
      transferAttempt (SubmitResult.strRes s) statuses = ⟨AttemptOutcome.retry, 0⟩) ∧
    (∀ (rc : Option Int) (statuses : Nat → Int),
      (transferAttempt (SubmitResult.dictRes rc) statuses).pollCalls = 0) ∧
    (∀ statuses : Nat → Int,
      transferAttempt SubmitResult.otherRes statuses = ⟨AttemptOutcome.retry, 0⟩) ∧
    (∀ (env : TransferEnv) (fuel n : Nat) (s : String),
      env.submit n = SubmitResult.strRes s → strStarts s "GM" = false →
      (backoffWait (drawnWait env n) (env.cancel n)).1 = WaitResult.completed →
      runTransfer env (fuel + 1) n =
        ⟨(runTransfer env fuel (n + 1)).result, (runTransfer env fuel (n + 1)).attempts + 1,
         (runTransfer env fuel (n + 1)).hist, (runTransfer env fuel (n + 1)).backoffs + 1⟩) := by
  have hng : ∀ (s : String) (statuses : Nat → Int), strStarts s "GM" = false →
      transferAttempt (SubmitResult.strRes s) statuses = ⟨AttemptOutcome.retry, 0⟩ := by
    intro s statuses hb
    simp [transferAttempt, hb]
  refine ⟨fun s statuses => ?_, hng, fun rc statuses => ?_, fun statuses => rfl,
    fun env fuel n s hsub hb hw => ?_⟩
  · rcases hb : strStarts s "GM" with _ | _
    · rw [hng s statuses hb]
      simp
    · rw [transferAttempt_gm s statuses hb]
      have hpos : 1 ≤ (pollTransferStatus statuses).2 :=
        pollTransferLoop_calls_pos statuses 9 0
      simp
      omega
  · rcases hrc : rc.getD (-1) == 0 || rc.getD (-1) == 5 with _ | _ <;>
      simp [transferAttempt, hrc]
  · have h : (transferAttempt (env.submit n) (env.statuses n)).outcome = .retry := by
      rw [hsub, hng s (env.statuses n) hb]
    exact runTransfer_step_completed env fuel n h hw

/-- C10 witness: a non-GM string is a failed submission with no status
check, and a GM string enters polling. -/
theorem gm_prefix_gates_polling_witness :
    strStarts "AB123" "GM" = false ∧
    transferAttempt (SubmitResult.strRes "AB123") (fun _ => 5) = ⟨AttemptOutcome.retry, 0⟩ ∧
    (transferAttempt (SubmitResult.strRes "GM9") (fun _ => 5)).pollCalls ≠ 0 :=
  ⟨by decide, gm_prefix_gates_polling.2.1 "AB123" (fun _ => 5) (by decide),
   (gm_prefix_gates_polling.1 "GM9" (fun _ => 5)).mpr (by decide)⟩

/-- C1: For every execution of either retry loop, there is no maximum
attempt count and the loop terminates only with Succeeded (`True`) or
Cancelled (`None`): the result is never Failed, a Succeeded run backed
off once per preceding attempt, a Cancelled run backed off on every
attempt, every non-terminal attempt whose wait completes is followed by
a resubmission, and for every budget N there is a remote-response
environment under which the loop is still running after N submissions. -/
theorem retry_loops_unbounded :
    (∀ (env : TransferEnv) (fuel n : Nat),
      (runTransfer env fuel n).result ≠ some TriState.failure ∧
      ((runTransfer env fuel n).result = some TriState.success →
        (runTransfer env fuel n).backoffs + 1 = (runTransfer env fuel n).attempts) ∧
      ((runTransfer env fuel n).result = some TriState.cancelled →
        (runTransfer env fuel n).backoffs = (runTransfer env fuel n).attempts) ∧
      ((transferAttempt (env.submit n) (env.statuses n)).outcome = AttemptOutcome.retry →
        (backoffWait (drawnWait env n) (env.cancel n)).1 = WaitResult.completed →
        runTransfer env (fuel + 1) n =
          ⟨(runTransfer env fuel (n + 1)).result, (runTransfer env fuel (n + 1)).attempts + 1,
           (runTransfer env fuel (n + 1)).hist, (runTransfer env fuel (n + 1)).backoffs + 1⟩)) ∧
    (∀ (env : ReturnEnv) (fuel n : Nat),
      (runReturn env fuel n).result ≠ some TriState.failure ∧
      ((runReturn env fuel n).result = some TriState.success →
        (runReturn env fuel n).backoffs + 1 = (runReturn env fuel n).attempts) ∧
      ((runReturn env fuel n).result = some TriState.cancelled →
        (runReturn env fuel n).backoffs = (runReturn env fuel n).attempts) ∧
      ((returnAttempt (env.submit n) (env.fetch n) env.travelId).outcome =
          AttemptOutcome.retry →
        (backoffWait (drawnWaitR env n) (env.cancel n)).1 = WaitResult.completed →
        runReturn env (fuel + 1) n =
          ⟨(runReturn env fuel (n + 1)).result, (runReturn env fuel (n + 1)).attempts + 1,
           (runReturn env fuel (n + 1)).hist, (runReturn env fuel (n + 1)).backoffs + 1⟩)) ∧
    (∀ N, (runTransferFrom envAlwaysBusy N).result = none ∧
      (runTransferFrom envAlwaysBusy N).attempts = N) ∧
    (∀ N, (runReturnFrom envAlwaysBusyR N).result = none ∧
      (runReturnFrom envAlwaysBusyR N).attempts = N) := by
  refine ⟨fun env fuel n => ?_, fun env fuel n => ?_, fun N => ?_, fun N => ?_⟩
  · refine ⟨runTransfer_never_failure env fuel n, fun hres => ?_, fun hres => ?_,
      fun h hw => runTransfer_step_completed env fuel n h hw⟩
    · rcases runTransfer_trace_cases env fuel n with ⟨h1, _⟩ | ⟨_, _, h3⟩ | ⟨h1, _⟩
      · rw [h1] at hres; simp at hres
      · exact h3
      · rw [h1] at hres; simp at hres
    · rcases runTransfer_trace_cases env fuel n with ⟨h1, _⟩ | ⟨h1, _⟩ | ⟨_, _, h3⟩
      · rw [h1] at hres; simp at hres
      · rw [h1] at hres; simp at hres
      · exact h3
  · refine ⟨runReturn_never_failure env fuel n, fun hres => ?_, fun hres => ?_,
      fun h hw => runReturn_step_completed env fuel n h hw⟩
    · rcases runReturn_trace_cases env fuel n with ⟨h1, _⟩ | ⟨_, _, h3⟩ | ⟨h1, _⟩
      · rw [h1] at hres; simp at hres
      · exact h3
      · rw [h1] at hres; simp at hres
    · rcases runReturn_trace_cases env fuel n with ⟨h1, _⟩ | ⟨h1, _⟩ | ⟨_, _, h3⟩
      · rw [h1] at hres; simp at hres
      · rw [h1] at hres; simp at hres
      · exact h3
  · rw [runTransferFrom, runTransfer_envAlwaysBusy N 0]
    exact ⟨rfl, rfl⟩
  · rw [runReturnFrom, runReturn_envAlwaysBusyR N 0]
    exact ⟨rfl, rfl⟩

/-- C1 witness: a run that succeeds at its first attempt has one more
attempt than backoff waits. -/
theorem retry_loops_unbounded_witness :
    (runTransfer envOneShot 1 0).result = some TriState.success ∧
    (runTransfer envOneShot 1 0).backoffs + 1 = (runTransfer envOneShot 1 0).attempts :=
  ⟨by decide, (retry_loops_unbounded.1 envOneShot 1 0).2.1 (by decide)⟩

/-- C4: If cancellation is signalled during any tick of a backoff wait
(including the first), the wait stops at that tick without completing
the remaining countdown, the run terminates with the Cancelled
outcome, exactly one history record with `succeeded=false` is written,
and no further submissions are issued after the cancellation. -/
theorem cancellation_during_backoff :
    (∀ (cancel : Nat → Bool) (waitSec k : Nat), k < waitSec → cancel k = true →
      (∀ i, i < k → cancel i = false) →
      backoffWait waitSec cancel = (WaitResult.cancelled, k + 1)) ∧
    (∀ (env : TransferEnv) (fuel n : Nat),
      ((transferAttempt (env.submit n) (env.statuses n)).outcome = AttemptOutcome.retry →
        (backoffWait (drawnWait env n) (env.cancel n)).1 = WaitResult.cancelled →
        runTransfer env (fuel + 1) n = ⟨some TriState.cancelled, 1, [false], 1⟩) ∧
      ((runTransfer env fuel n).result = some TriState.cancelled →
        (runTransfer env fuel n).hist = [false] ∧
        (runTransfer env fuel n).attempts = (runTransfer env fuel n).backoffs)) ∧
    (∀ (env : ReturnEnv) (fuel n : Nat),
      ((returnAttempt (env.submit n) (env.fetch n) env.travelId).outcome =
          AttemptOutcome.retry →
        (backoffWait (drawnWaitR env n) (env.cancel n)).1 = WaitResult.cancelled →
        runReturn env (fuel + 1) n = ⟨some TriState.cancelled, 1, [false], 1⟩) ∧
      ((runReturn env fuel n).result = some TriState.cancelled →
        (runReturn env fuel n).hist = [false] ∧
        (runReturn env fuel n).attempts = (runReturn env fuel n).backoffs)) := by
  refine ⟨fun cancel waitSec k hk hck hmin => ?_, fun env fuel n => ?_, fun env fuel n => ?_⟩
  · have h := countdown_first_cancel cancel k waitSec 0 hk (by simpa using hck)
      (fun i hi => by simpa using hmin i hi)
    simpa [backoffWait] using h
  · refine ⟨fun h hw => runTransfer_step_cancelled env fuel n h hw, fun hres => ?_⟩
    rcases runTransfer_trace_cases env fuel n with ⟨h1, _⟩ | ⟨h1, _⟩ | ⟨_, h2, h3⟩
    · rw [h1] at hres; simp at hres
    · rw [h1] at hres; simp at hres
    · exact ⟨h2, h3.symm⟩
  · refine ⟨fun h hw => runReturn_step_cancelled env fuel n h hw, fun hres => ?_⟩
    rcases runReturn_trace_cases env fuel n with ⟨h1, _⟩ | ⟨h1, _⟩ | ⟨_, h2, h3⟩
    · rw [h1] at hres; simp at hres
    · rw [h1] at hres; simp at hres
    · exact ⟨h2, h3.symm⟩

/-- C4 witness: a cancellation arriving at tick 2 of a 61-second wait
stops after 3 ticks, and a run cancelled in its first backoff records
exactly one failed outcome with no further submission. -/
theorem cancellation_during_backoff_witness :
    backoffWait 61 (fun t => t == 2) = (WaitResult.cancelled, 3) ∧
    (runTransfer envCancelFirstTick 1 0).result = some TriState.cancelled ∧
    (runTransfer envCancelFirstTick 1 0).hist = [false] ∧
    (runTransfer envCancelFirstTick 1 0).attempts = (runTransfer envCancelFirstTick 1 0).backoffs :=
  ⟨cancellation_during_backoff.1 (fun t => t == 2) 61 2 (by decide) (by decide)
     (fun i hi => by simp only [beq_eq_false_iff_ne]; omega),
   by decide,
   (cancellation_during_backoff.2.1 envCancelFirstTick 1 0).2 (by decide)⟩

/-- C6: Every run reaching a terminal state makes exactly one
outcome-record call: Succeeded records exactly once with
`succeeded=true`, Cancelled exactly once with `succeeded=false`, a
still-running (fuel-exhausted) prefix has recorded nothing, never more
than one record is made, and nothing is retried after a Cancelled
outcome. -/
theorem exactly_one_history_record :
    (∀ (env : TransferEnv) (fuel n : Nat),
      (runTransfer env fuel n).hist.length ≤ 1 ∧
      ((runTransfer env fuel n).result = some TriState.success →
        (runTransfer env fuel n).hist = [true]) ∧
      ((runTransfer env fuel n).result = some TriState.cancelled →
        (runTransfer env fuel n).hist = [false] ∧
        (runTransfer env fuel n).attempts = (runTransfer env fuel n).backoffs) ∧
      ((runTransfer env fuel n).result = none → (runTransfer env fuel n).hist = [])) ∧
    (∀ (env : ReturnEnv) (fuel n : Nat),
      (runReturn env fuel n).hist.length ≤ 1 ∧
      ((runReturn env fuel n).result = some TriState.success →
        (runReturn env fuel n).hist = [true]) ∧
      ((runReturn env fuel n).result = some TriState.cancelled →
        (runReturn env fuel n).hist = [false] ∧
        (runReturn env fuel n).attempts = (runReturn env fuel n).backoffs) ∧
      ((runReturn env fuel n).result = none → (runReturn env fuel n).hist = [])) := by
  constructor
  · intro env fuel n
    rcases runTransfer_trace_cases env fuel n with ⟨h1, h2, _⟩ | ⟨h1, h2, _⟩ | ⟨h1, h2, h3⟩
    · refine ⟨by simp [h2], fun hres => ?_, fun hres => ?_, fun _ => h2⟩ <;>
        (rw [h1] at hres; simp at hres)
    · refine ⟨by simp [h2], fun _ => h2, fun hres => ?_, fun hres => ?_⟩ <;>
        (rw [h1] at hres; simp at hres)
    · refine ⟨by simp [h2], fun hres => ?_, fun _ => ⟨h2, h3.symm⟩, fun hres => ?_⟩ <;>
        (rw [h1] at hres; simp at hres)
  · intro env fuel n
    rcases runReturn_trace_cases env fuel n with ⟨h1, h2, _⟩ | ⟨h1, h2, _⟩ | ⟨h1, h2, h3⟩
    · refine ⟨by simp [h2], fun hres => ?_, fun hres => ?_, fun _ => h2⟩ <;>
        (rw [h1] at hres; simp at hres)
    · refine ⟨by simp [h2], fun _ => h2, fun hres => ?_, fun hres => ?_⟩ <;>
        (rw [h1] at hres; simp at hres)
    · refine ⟨by simp [h2], fun hres => ?_, fun _ => ⟨h2, h3.symm⟩, fun hres => ?_⟩ <;>
        (rw [h1] at hres; simp at hres)

/-- C6 witness: a return run that succeeds at once records exactly one
`succeeded=true` outcome. -/
theorem exactly_one_history_record_witness :
    (runReturn envReturnOneShot 1 0).result = some TriState.success ∧
    (runReturn envReturnOneShot 1 0).hist = [true] :=
  ⟨by decide, (exactly_one_history_record.2 envReturnOneShot 1 0).2.1 (by decide)⟩

/-- C5: The status poller makes at most 10 status checks in the
transfer flow and at most 12 order-list fetches in the return flow; it
returns as soon as a check classifies as Success or PrecheckFailed
(pending for the first N-1 checks and a terminal classification at
check N means exactly N checks), and exhausting all attempts without a
terminal classification yields the timed-out result, on which the
attempt is non-terminal (retry) and re-enters the backoff cycle
instead of ending the run. -/
theorem status_poller_bounded :
    (∀ statuses : Nat → Int, (pollTransferStatus statuses).2 ≤ 10) ∧
    (∀ (statuses : Nat → Int) (j : Nat), j < 10 →
      (∀ i, i < j → pollStepOf (statuses i) = PollStep.keepPolling) →
      (pollStepOf (statuses j) = PollStep.terminateSuccess →
        pollTransferStatus statuses = (PollOutcome.success, j + 1)) ∧
      (pollStepOf (statuses j) = PollStep.abortPrecheck →
        pollTransferStatus statuses = (PollOutcome.precheckFailed, j + 1))) ∧
    (∀ statuses : Nat → Int,
      (∀ i, i < 10 → pollStepOf (statuses i) = PollStep.keepPolling) →
      pollTransferStatus statuses = (PollOutcome.timedOut, 10)) ∧
    (∀ (fetch : Nat → Option (List RemoteOrder)) (tid rid : String),
      (pollReturnStatus fetch tid rid).2 ≤ 12) ∧
    (∀ (fetch : Nat → Option (List RemoteOrder)) (tid rid : String) (j : Nat), j < 12 →
      (∀ i, i < j → returnPollNonTerminal fetch tid rid i = true) →
      ∀ (orders : List RemoteOrder) (b : Bool), fetch j = some orders →
        scanForReturnOrder tid rid orders = some b →
        pollReturnStatus fetch tid rid = (b, j + 1)) ∧
    (∀ (fetch : Nat → Option (List RemoteOrder)) (tid rid : String),
      (∀ i, i < 12 → returnPollNonTerminal fetch tid rid i = true) →
      pollReturnStatus fetch tid rid = (false, 12)) ∧
    (∀ (s : String) (statuses : Nat → Int), strStarts s "GM" = true →
      (pollTransferStatus statuses).1 = PollOutcome.timedOut →
      (transferAttempt (SubmitResult.strRes s) statuses).outcome = AttemptOutcome.retry) ∧
    (∀ (rid : String) (fetch : Nat → Option (List RemoteOrder)) (tid : String),
      (pollReturnStatus fetch tid rid).1 = false →
      (returnAttempt (BackSubmit.okRes rid) fetch tid).outcome = AttemptOutcome.retry) := by
  refine ⟨fun statuses => ?_, fun statuses j hj hkeep => ?_, pollTransferStatus_timeout,
    fun fetch tid rid => ?_, fun fetch tid rid j hj hnt orders b hf hs => ?_,
    pollReturnStatus_timeout, fun s statuses hs hp => ?_, fun rid fetch tid hp => ?_⟩
  · have := pollTransferLoop_calls_le statuses 10 0
    simpa [pollTransferStatus] using this
  · exact pollTransferStatus_terminal statuses j hj hkeep
  · have := pollReturnLoop_calls_le fetch tid rid 12 0
    simpa [pollReturnStatus] using this
  · exact pollReturnStatus_terminal fetch tid rid j hj hnt orders b hf hs
  · rw [transferAttempt_gm s statuses hs]
    simp [hp]
  · rw [returnAttempt_ok rid fetch tid]
    simp [hp]

/-- C5 witness: two pending checks then code 5 means exactly three
checks and Success; ten pending checks mean TimedOut after exactly ten;
three failed fetches then a completed return order mean exactly four
fetches. -/
theorem status_poller_bounded_witness :
    pollTransferStatus (fun i => if i < 2 then 1 else 5) = (PollOutcome.success, 3) ∧
    pollTransferStatus (fun _ => 0) = (PollOutcome.timedOut, 10) ∧
    pollReturnStatus (fun i => if i < 3 then none else some [ordReturnDone]) "T1" "R1" =
      (true, 4) :=
  ⟨((status_poller_bounded.2.1 (fun i => if i < 2 then 1 else 5) 2 (by decide)
      (by decide)).1 (by decide)),
   status_poller_bounded.2.2.1 (fun _ => 0) (by decide),
   status_poller_bounded.2.2.2.2.1 (fun i => if i < 3 then none else some [ordReturnDone])
     "T1" "R1" 3 (by decide) (by decide) [ordReturnDone] true (by decide) (by decide)⟩

/-- C7 counterexample: a status check failing with a transient or
network error (or a non-zero service return code) yields the raw code
-1, which the poll loop classifies as PrecheckFailed and not as
Pending — refuting the claim that such a failure is classified as
Pending so that the poll cycle continues. -/
theorem status_error_counterexample :
    checkOrderStatus StatusResponse.networkError = -1 ∧
    checkOrderStatus StatusResponse.serviceError = -1 ∧
    pollStepOf (checkOrderStatus StatusResponse.networkError) = PollStep.abortPrecheck ∧
    pollStepOf (checkOrderStatus StatusResponse.networkError) ≠ PollStep.keepPolling := by
  refine ⟨rfl, rfl, by decide, by decide⟩

/-- C7 (amended): a status-check invocation that fails with a
transient/network error or a non-zero service return code yields -1,
which the poll classifies as PrecheckFailed: the current poll phase
ends immediately, the attempt is non-terminal, and the run never ends
in a Failed result — the failure is never fatal, but it is not treated
as an ordinary pending status. -/
theorem status_error_amended :
    (checkOrderStatus StatusResponse.networkError = -1 ∧
     checkOrderStatus StatusResponse.serviceError = -1 ∧
     pollStepOf (-1) = PollStep.abortPrecheck) ∧
    (∀ (statuses : Nat → Int) (n calls : Nat),
      pollStepOf (statuses calls) = PollStep.abortPrecheck →
      pollTransferLoop statuses (n + 1) calls = (PollOutcome.precheckFailed, calls + 1)) ∧
    (∀ (s : String) (statuses : Nat → Int), strStarts s "GM" = true →
      (pollTransferStatus statuses).1 = PollOutcome.precheckFailed →
      (transferAttempt (SubmitResult.strRes s) statuses).outcome = AttemptOutcome.retry) ∧
    (∀ (env : TransferEnv) (fuel n : Nat),
      (runTransfer env fuel n).result ≠ some TriState.failure) := by
  refine ⟨⟨rfl, rfl, by decide⟩, fun statuses n calls hk => ?_, fun s statuses hs hp => ?_,
    fun env fuel n => runTransfer_never_failure env fuel n⟩
  · simp only [pollTransferLoop, hk]
  · rw [transferAttempt_gm s statuses hs]
    simp [hp]

/-- C7 witness: a poll whose first check suffers a network error ends
the poll phase at once with the PrecheckFailed outcome. -/
theorem status_error_amended_witness :
    pollStepOf ((fun _ => checkOrderStatus StatusResponse.networkError) 0) =
      PollStep.abortPrecheck ∧
    pollTransferLoop (fun _ => checkOrderStatus StatusResponse.networkError) 10 0 =
      (PollOutcome.precheckFailed, 1) :=
  ⟨by decide,
   status_error_amended.2.1 (fun _ => checkOrderStatus StatusResponse.networkError) 9 0
     (by decide)⟩

/-- C8 counterexample: with the submit collaborator rejecting the
first three submissions as busy (`resultCode = 2`) and accepting the
fourth with an order id whose first status check yields code 5, the
run performs three backoff waits, not two as claimed, before reporting
Succeeded. -/
theorem busy_scenario_counterexample :
    (runTransferFrom envScenarioB 4).result = some TriState.success ∧
    (runTransferFrom envScenarioB 4).backoffs = 3 ∧
    (runTransferFrom envScenarioB 4).backoffs ≠ 2 := by
  refine ⟨by decide, by decide, by decide⟩

/-- C8 (amended): with three busy rejections followed by an accepted
submission whose first status check yields code 5, the orchestrator
performs exactly three backoff waits and four submissions before
reporting Succeeded with a single success record. -/
theorem busy_scenario_amended :
    (runTransferFrom envScenarioB 4).result = some TriState.success ∧
    (runTransferFrom envScenarioB 4).attempts = 4 ∧
    (runTransferFrom envScenarioB 4).hist = [true] ∧
    (runTransferFrom envScenarioB 4).backoffs = 3 := by
  refine ⟨by decide, by decide, by decide, by decide⟩

end FF14DCT
